import Mathlib

/-!
Shallow embedding of the logger/adapter-registry subsystem of the repository
(file `vendor/logs/log.go`, package `logs`).

Modelling conventions:
* Go `int` is `Int`.
* A Go map is an association list `List (String × _)`; insertion replaces an
  existing binding in place or appends a fresh one at the end, so iteration
  order over a concrete run is deterministic in the model (Go map iteration
  order is unspecified; the claims quantify over the list, so nothing proved
  here depends on a particular order).
* The buffered channel `bl.msg` is a FIFO `List logMsg` (send = append at the
  tail, receive = take from the head).  Channel capacity only matters for
  blocking, which a pure embedding cannot observe; the capacity argument is
  kept as a field for fidelity.
* `runtime.Caller(depth)` is an oracle passed in as a parameter
  `caller : Option (String × Int)` (`none` models `ok = false`).
* Calls to the adapter interface are recorded as an `Event` trace returned
  alongside the new state; an adapter instance is characterised by the
  results its fallible operations return (`Init`, `WriteMsg`).
* `fmt.Sprintf` is embedded as `Sprintf` below, implementing the fragment of
  Go's verb expansion the logger exercises (`%s`, `%d`, `%v`, `%%`, literal
  text, missing/extra-argument markers).
-/

namespace Logs

/-- A value passed through Go's `...interface{}` variadic slot, restricted to
the shapes the proofs instantiate. -/
inductive GoVal where
  | int (i : Int)
  | str (s : String)
deriving DecidableEq

/-- Rendering of one Go format verb applied to one argument (fragment of
Go's `fmt` behaviour; mismatched verb/argument pairs produce Go-style
`%!` markers). -/
def render (c : Char) (v : GoVal) : String :=
  if c = 'd' then
    match v with
    | .int i => toString i
    | .str s => "%!d(" ++ s ++ ")"
  else if c = 's' then
    match v with
    | .str s => s
    | .int i => "%!s(" ++ toString i ++ ")"
  else if c = 'v' then
    match v with
    | .int i => toString i
    | .str s => s
  else
    "%!" ++ String.singleton c ++ "(" ++ (match v with | .int i => toString i | .str s => s) ++ ")"

/-- Marker Go appends when arguments are left over after the format string is
exhausted. -/
def extraMark (vs : List GoVal) : String :=
  "%!(EXTRA " ++ String.intercalate ", " (vs.map (fun v => match v with | .int i => toString i | .str s => s)) ++ ")"

/-- Scanner core of `fmt.Sprintf`: walks the format character list, consuming
one argument per verb. -/
def sprintfAux : List Char → List GoVal → String
  | [], vs => if vs.isEmpty then "" else extraMark vs
  | c :: rest, vs =>
    if c = '%' then
      match rest with
      | [] => "%!(NOVERB)"
      | c2 :: rest2 =>
        if c2 = '%' then "%" ++ sprintfAux rest2 vs
        else
          match vs with
          | [] => "%!" ++ String.singleton c2 ++ "(MISSING)" ++ sprintfAux rest2 []
          | v :: vs2 => render c2 v ++ sprintfAux rest2 vs2
    else
      String.singleton c ++ sprintfAux rest vs

/-- Embedding of `fmt.Sprintf(format, v...)` on the fragment used by the
logger. -/
def Sprintf (format : String) (vs : List GoVal) : String :=
  sprintfAux format.data vs

/-! ## RFC5424 log message levels (`const` block of `log.go`) -/

def LevelEmergency : Int := 0
def LevelAlert : Int := 1
def LevelCritical : Int := 2
def LevelError : Int := 3
def LevelWarning : Int := 4
def LevelNotice : Int := 5
def LevelInformational : Int := 6
def LevelDebug : Int := 7

/-! Legacy loglevel constants kept for backwards compatibility. -/

def LevelInfo : Int := LevelInformational
def LevelTrace : Int := LevelDebug
def LevelWarn : Int := LevelWarning

/-! ## Adapter interface and registry -/

/-- Interface `XLoggerInterface` defines the behavior of a log provider.  The two
fallible operations are characterised by the results they return; `Destroy`
and `Flush` have no observable result and appear only in the event trace. -/
structure XLoggerInterface where
  initRes : String → Option String
  writeErr : String → Int → Option String

/-- Factory type `loggerType func() XLoggerInterface`. -/
def loggerType := Unit → XLoggerInterface

/-- One call made on an adapter instance, recorded in the trace of a logger
operation. -/
inductive Event where
  | write (adapter : String) (msg : String) (level : Int)
  | flush (adapter : String)
  | destroy (adapter : String)

/-- Function `Register` makes a log provider available by the provided name.  The Go
function panics when the factory is `nil` (modelled by the `Option` argument
being `none`) or the name is already registered; `Except.error` models the
panic, `Except.ok` returns the updated process-wide `adapters` map. -/
def Register (adapters : List (String × loggerType)) (name : String)
    (log : Option loggerType) : Except String (List (String × loggerType)) :=
  match log with
  | none => .error "logs: Register provide is nil"
  | some l =>
    match adapters.lookup name with
    | some _ => .error ("logs: Register called twice for provider " ++ name)
    | none => .ok (adapters ++ [(name, l)])

/-! ## Logger state -/

/-- One buffered record: `type logMsg struct { level int; msg string }`. -/
structure logMsg where
  level : Int
  msg : String

/-- Struct `XLogger` is the default logger; it can contain several providers and
log a message into all providers.  The `sync.Mutex` field has no pure
counterpart; the `msg` channel is its FIFO buffer content. -/
structure XLogger where
  level : Int
  enableFuncCallDepth : Bool
  loggerFuncCallDepth : Int
  asynchronous : Bool
  channellen : Int
  msg : List logMsg
  outputs : List (String × XLoggerInterface)
  extra : String

/-- Constructor `NewXLogger(channellen)` returns a new `XLogger` with default level
`LevelDebug`, caller-skip depth 2, synchronous mode, an empty buffer and no
adapters. -/
def NewXLogger (channellen : Int) : XLogger :=
  { level := LevelDebug
    enableFuncCallDepth := false
    loggerFuncCallDepth := 2
    asynchronous := false
    channellen := channellen
    msg := []
    outputs := []
    extra := "" }

/-- Go map assignment `m[k] = v`: replace the binding in place when the key
is present, otherwise add a fresh one. -/
def mapInsert : List (String × XLoggerInterface) → String → XLoggerInterface →
    List (String × XLoggerInterface)
  | [], n, v => [(n, v)]
  | (k, w) :: rest, n, v =>
    if k = n then (n, v) :: rest else (k, w) :: mapInsert rest n v

/-- Method `SetXLogger` provides a logger adapter into `XLogger` with a config
string: look the name up in the registry, build an instance, `Init` it with
the config, store the instance in `outputs` (regardless of the `Init`
outcome) and return the `Init` error; an unregistered name yields the
"unknown adaptername" error and leaves the logger unchanged. -/
def SetXLogger (adapters : List (String × loggerType)) (bl : XLogger)
    (adaptername config : String) : XLogger × Option String :=
  match adapters.lookup adaptername with
  | some log =>
    let lg := log ()
    let err := lg.initRes config
    let bl' := { bl with outputs := mapInsert bl.outputs adaptername lg }
    (bl', err)
  | none =>
    (bl, some ("logs: unknown adaptername \"" ++ adaptername ++ "\" (forgotten Register?)"))

/-! ## Configuration setters -/

/-- Method `SetLevel` sets the log message level. -/
def SetLevel (bl : XLogger) (l : Int) : XLogger := { bl with level := l }

/-- Method `SetExtra` sets the free-form extra tag. -/
def SetExtra (bl : XLogger) (extra : String) : XLogger := { bl with extra := extra }

/-- Method `SetLogFuncCallDepth` sets the caller-frame skip depth. -/
def SetLogFuncCallDepth (bl : XLogger) (d : Int) : XLogger :=
  { bl with loggerFuncCallDepth := d }

/-- Method `GetLogFuncCallDepth` returns the caller-frame skip depth. -/
def GetLogFuncCallDepth (bl : XLogger) : Int := bl.loggerFuncCallDepth

/-- Method `EnableFuncCallDepth` toggles caller-location reporting. -/
def EnableFuncCallDepth (bl : XLogger) (b : Bool) : XLogger :=
  { bl with enableFuncCallDepth := b }

/-! ## Message path -/

/-- Go `path.Split(file)` second component: everything after the final
slash. -/
def pathSplitFile (p : String) : String :=
  match (p.split (fun c => c = '/')).getLast? with
  | some s => s
  | none => p

/-- The record text built inside `writerMsg`: with caller-location reporting
the `runtime.Caller` oracle result (`none` = `!ok`, masked by `"???"` and
line 0) yields `Sprintf "[%s:%s:%d] %s"` over extra tag, file basename, line
and message; otherwise `Sprintf "[%s] %s"` over extra tag and message. -/
def fmtText (bl : XLogger) (caller : Option (String × Int)) (msg : String) : String :=
  if bl.enableFuncCallDepth then
    let fl := match caller with
      | some (f, l) => (f, l)
      | none => ("???", (0 : Int))
    let filename := pathSplitFile fl.1
    Sprintf "[%s:%s:%d] %s" [.str bl.extra, .str filename, .int fl.2, .str msg]
  else
    Sprintf "[%s] %s" [.str bl.extra, .str msg]

/-- The synchronous dispatch loop of `writerMsg`: call `WriteMsg` on each
active adapter in turn; on the first failure return that error immediately,
skipping the remaining adapters. -/
def writeLoop : List (String × XLoggerInterface) → String → Int →
    List Event × Option String
  | [], _, _ => ([], none)
  | (name, l) :: rest, m, lv =>
    match l.writeErr m lv with
    | some e => ([.write name m lv], some e)
    | none =>
      let r := writeLoop rest m lv
      (.write name m lv :: r.1, r.2)

/-- Method `writerMsg(loglevel, msg)`: build the record text via `fmtText`, then in
asynchronous mode append the record to the channel buffer (no adapter
calls), in synchronous mode run `writeLoop` over the active adapters.
Returns (new state, adapter-call trace, returned `error`). -/
def writerMsg (bl : XLogger) (caller : Option (String × Int)) (loglevel : Int)
    (msg : String) : XLogger × List Event × Option String :=
  let lm : logMsg := { level := loglevel, msg := fmtText bl caller msg }
  if bl.asynchronous then
    ({ bl with msg := bl.msg ++ [lm] }, [], none)
  else
    let r := writeLoop bl.outputs lm.msg lm.level
    (bl, r.1, r.2)

/-- Projection used by the public per-severity methods: Go discards the
`error` returned by `writerMsg`, so the public surface exposes only the new
state and the adapter-call trace. -/
def dropErr (r : XLogger × List Event × Option String) : XLogger × List Event :=
  (r.1, r.2.1)

/-- Log EMERGENCY level message. -/
def Emergency (bl : XLogger) (caller : Option (String × Int)) (format : String)
    (v : List GoVal) : XLogger × List Event :=
  if LevelEmergency > bl.level then (bl, [])
  else dropErr (writerMsg bl caller LevelEmergency (Sprintf ("[M] " ++ format) v))

/-- Log ALERT level message. -/
def Alert (bl : XLogger) (caller : Option (String × Int)) (format : String)
    (v : List GoVal) : XLogger × List Event :=
  if LevelAlert > bl.level then (bl, [])
  else dropErr (writerMsg bl caller LevelAlert (Sprintf ("[A] " ++ format) v))

/-- Log CRITICAL level message. -/
def Critical (bl : XLogger) (caller : Option (String × Int)) (format : String)
    (v : List GoVal) : XLogger × List Event :=
  if LevelCritical > bl.level then (bl, [])
  else dropErr (writerMsg bl caller LevelCritical (Sprintf ("[C] " ++ format) v))

/-- Log ERROR level message. -/
def Error (bl : XLogger) (caller : Option (String × Int)) (format : String)
    (v : List GoVal) : XLogger × List Event :=
  if LevelError > bl.level then (bl, [])
  else dropErr (writerMsg bl caller LevelError (Sprintf ("[E] " ++ format) v))

/-- Log WARNING level message. -/
def Warning (bl : XLogger) (caller : Option (String × Int)) (format : String)
    (v : List GoVal) : XLogger × List Event :=
  if LevelWarning > bl.level then (bl, [])
  else dropErr (writerMsg bl caller LevelWarning (Sprintf ("[W] " ++ format) v))

/-- Log NOTICE level message. -/
def Notice (bl : XLogger) (caller : Option (String × Int)) (format : String)
    (v : List GoVal) : XLogger × List Event :=
  if LevelNotice > bl.level then (bl, [])
  else dropErr (writerMsg bl caller LevelNotice (Sprintf ("[N] " ++ format) v))

/-- Log INFORMATIONAL level message. -/
def Informational (bl : XLogger) (caller : Option (String × Int)) (format : String)
    (v : List GoVal) : XLogger × List Event :=
  if LevelInformational > bl.level then (bl, [])
  else dropErr (writerMsg bl caller LevelInformational (Sprintf ("[I] " ++ format) v))

/-- Log DEBUG level message. -/
def Debug (bl : XLogger) (caller : Option (String × Int)) (format : String)
    (v : List GoVal) : XLogger × List Event :=
  if LevelDebug > bl.level then (bl, [])
  else dropErr (writerMsg bl caller LevelDebug (Sprintf ("[D] " ++ format) v))

/-- Log WARN level message; compatibility alias for `Warning`. -/
def Warn (bl : XLogger) (caller : Option (String × Int)) (format : String)
    (v : List GoVal) : XLogger × List Event :=
  if LevelWarning > bl.level then (bl, [])
  else dropErr (writerMsg bl caller LevelWarning (Sprintf ("[W] " ++ format) v))

/-- Log INFO level message; compatibility alias for `Informational`. -/
def Info (bl : XLogger) (caller : Option (String × Int)) (format : String)
    (v : List GoVal) : XLogger × List Event :=
  if LevelInformational > bl.level then (bl, [])
  else dropErr (writerMsg bl caller LevelInformational (Sprintf ("[I] " ++ format) v))

/-- Log TRACE level message; compatibility alias for `Debug`. -/
def Trace (bl : XLogger) (caller : Option (String × Int)) (format : String)
    (v : List GoVal) : XLogger × List Event :=
  if LevelDebug > bl.level then (bl, [])
  else dropErr (writerMsg bl caller LevelDebug (Sprintf ("[D] " ++ format) v))

/-! ## Asynchronous dispatcher and shutdown -/

/-- One iteration of the `startXLogger` dispatcher loop (and of the drain
loops): write one received record to every active adapter; a failing
`WriteMsg` is only printed, iteration continues. -/
def dispatchAll (outputs : List (String × XLoggerInterface)) (m : String)
    (lv : Int) : List Event :=
  outputs.map (fun p => .write p.1 m lv)

/-- Method `Flush` calls each active adapter's `Flush`. -/
def Flush (bl : XLogger) : XLogger × List Event :=
  (bl, bl.outputs.map (fun p => .flush p.1))

/-- The drain loop of `Close`: while the channel buffer is non-empty, pop the
head record and write it to every active adapter (errors only printed). -/
def closeDrain : List logMsg → List (String × XLoggerInterface) → List Event
  | [], _ => []
  | bm :: rest, outs => dispatchAll outs bm.msg bm.level ++ closeDrain rest outs

/-- Method `Close`: drain the channel buffer in FIFO order, then `Flush` and
`Destroy` each active adapter. -/
def Close (bl : XLogger) : XLogger × List Event :=
  ({ bl with msg := [] },
    closeDrain bl.msg bl.outputs
      ++ (bl.outputs.map (fun p => [Event.flush p.1, Event.destroy p.1])).flatten)

/-! ## Adapter instances used to evaluate concrete runs -/

/-- An adapter whose `Init` and `WriteMsg` always succeed. -/
def okAdapter : XLoggerInterface := ⟨fun _ => none, fun _ _ => none⟩

/-- An adapter whose `Init` succeeds and whose `WriteMsg` always fails with
error `e`. -/
def failAdapter (e : String) : XLoggerInterface := ⟨fun _ => none, fun _ _ => some e⟩

/-- An adapter whose `Init` fails with error `e`. -/
def badInitAdapter (e : String) : XLoggerInterface := ⟨fun _ => some e, fun _ _ => none⟩

/-! ## Specification-side definitions used to state the claims -/

/-- The file component `runtime.Caller` reports, after the `!ok` masking. -/
def callerFile : Option (String × Int) → String
  | some (f, _) => f
  | none => "???"

/-- The line component `runtime.Caller` reports, after the `!ok` masking. -/
def callerLine : Option (String × Int) → Int
  | some (_, l) => l
  | none => 0

/-- The final record text as the specification describes it (amended by the
`"[<extra>] "` prefix the code always adds): the caller-location or plain
extra-tag prefix, followed by the level-tag prefix `tagP` and the
printf-expanded body. -/
def deliveredText (bl : XLogger) (caller : Option (String × Int)) (tagP : String)
    (f : String) (v : List GoVal) : String :=
  if bl.enableFuncCallDepth then
    "[" ++ bl.extra ++ ":" ++ pathSplitFile (callerFile caller) ++ ":"
      ++ toString (callerLine caller) ++ "] " ++ (tagP ++ Sprintf f v)
  else
    "[" ++ bl.extra ++ "] " ++ (tagP ++ Sprintf f v)

/-- Recognises adapter `WriteMsg` calls in an event trace. -/
def isWrite : Event → Bool
  | .write _ _ _ => true
  | _ => false

/-- Level-filter behaviour of one per-severity method `M` at severity `S`
with level-tag prefix `tagP`: below the configured level the call is a
no-op (state unchanged, no adapter call); at or above it the call delivers —
synchronously it performs exactly the `writeLoop` adapter writes of the
formatted record, asynchronously it appends exactly that record to the
channel buffer. -/
def FilterSpec (M : XLogger → Option (String × Int) → String → List GoVal → XLogger × List Event)
    (S : Int) (tagP : String) : Prop :=
  ∀ (bl : XLogger) (caller : Option (String × Int)) (f : String) (v : List GoVal),
    (bl.level < S → M bl caller f v = (bl, [])) ∧
    (S ≤ bl.level →
      (bl.asynchronous = false →
        M bl caller f v
          = (bl, (writeLoop bl.outputs (fmtText bl caller (Sprintf (tagP ++ f) v)) S).1)) ∧
      (bl.asynchronous = true →
        M bl caller f v
          = ({ bl with msg := bl.msg
                ++ [{ level := S, msg := fmtText bl caller (Sprintf (tagP ++ f) v) }] }, [])))

/-- The public surface of one per-severity method `M`: whenever the level
filter passes, the method returns exactly the state and trace of `writerMsg`
with the `error` component projected away, so a caller can never observe an
adapter write error. -/
def DropsErrSpec (M : XLogger → Option (String × Int) → String → List GoVal → XLogger × List Event)
    (S : Int) (tagP : String) : Prop :=
  ∀ (bl : XLogger) (caller : Option (String × Int)) (f : String) (v : List GoVal),
    S ≤ bl.level →
    M bl caller f v
      = ((writerMsg bl caller S (Sprintf (tagP ++ f) v)).1,
         (writerMsg bl caller S (Sprintf (tagP ++ f) v)).2.1)

/-- Delivered-text behaviour of one per-severity method `M`: whenever the
level filter passes, every adapter write the call performs carries exactly
`deliveredText` at severity `S`, and in asynchronous mode the enqueued
record is exactly `deliveredText` at severity `S`. -/
def DeliveredTextSpec (M : XLogger → Option (String × Int) → String → List GoVal → XLogger × List Event)
    (S : Int) (tagP : String) : Prop :=
  ∀ (bl : XLogger) (caller : Option (String × Int)) (f : String) (v : List GoVal),
    S ≤ bl.level →
    (bl.asynchronous = false →
      (M bl caller f v).2
          = (writeLoop bl.outputs (deliveredText bl caller tagP f v) S).1 ∧
      ∀ ev ∈ (M bl caller f v).2,
        ∃ n, ev = Event.write n (deliveredText bl caller tagP f v) S) ∧
    (bl.asynchronous = true →
      (M bl caller f v).1.msg
        = bl.msg ++ [{ level := S, msg := deliveredText bl caller tagP f v }])

/-! ## Lemmas about the `Sprintf` embedding -/

lemma mk_cons_eq (c : Char) (cs : List Char) :
    String.mk (c :: cs) = String.singleton c ++ String.mk cs := rfl

lemma sprintfAux_cons (c : Char) (l : List Char) (vs : List GoVal) (h : ¬ c = '%') :
    sprintfAux (c :: l) vs = String.singleton c ++ sprintfAux l vs := by
  rw [sprintfAux.eq_def]
  dsimp only
  rw [if_neg h]

/-- A verb-free prefix of the format string is emitted verbatim. -/
lemma sprintfAux_append (p : List Char) (l : List Char) (vs : List GoVal)
    (h : '%' ∉ p) :
    sprintfAux (p ++ l) vs = String.mk p ++ sprintfAux l vs := by
  induction p with
  | nil => rfl
  | cons c p ih =>
    have hc : ¬ c = '%' := fun hc => h (hc ▸ List.mem_cons_self c p)
    have hp : '%' ∉ p := fun hp => h (List.mem_cons_of_mem c hp)
    rw [List.cons_append, sprintfAux_cons c _ vs hc, ih hp, mk_cons_eq,
      String.append_assoc]

/-- Go `fmt.Sprintf` distributes over a verb-free prefix of the format. -/
lemma Sprintf_append (p f : String) (vs : List GoVal) (h : '%' ∉ p.data) :
    Sprintf (p ++ f) vs = p ++ Sprintf f vs := by
  unfold Sprintf
  rw [show (p ++ f).data = p.data ++ f.data from String.data_append p f,
    sprintfAux_append p.data f.data vs h]

/-- Expansion of the two-argument format used by `writerMsg` without
caller-location reporting. -/
lemma Sprintf_extra_fmt (a b : String) :
    Sprintf "[%s] %s" [.str a, .str b] = "[" ++ a ++ "] " ++ b := by
  show "[" ++ (a ++ ("]" ++ (" " ++ (b ++ "")))) = "[" ++ a ++ "] " ++ b
  rw [String.append_empty, ← String.append_assoc "]" " " b,
    show ("]" ++ " " : String) = "] " from rfl, ← String.append_assoc,
    ← String.append_assoc]

/-- Expansion of the four-argument format used by `writerMsg` with
caller-location reporting. -/
lemma Sprintf_caller_fmt (a f : String) (l : Int) (m : String) :
    Sprintf "[%s:%s:%d] %s" [.str a, .str f, .int l, .str m]
      = "[" ++ a ++ ":" ++ f ++ ":" ++ toString l ++ "] " ++ m := by
  show "[" ++ (a ++ (":" ++ (f ++ (":" ++ (toString l ++ ("]" ++ (" " ++ (m ++ ""))))))))
      = "[" ++ a ++ ":" ++ f ++ ":" ++ toString l ++ "] " ++ m
  rw [String.append_empty, ← String.append_assoc "]" " " m,
    show ("]" ++ " " : String) = "] " from rfl]
  rw [← String.append_assoc, ← String.append_assoc, ← String.append_assoc,
    ← String.append_assoc, ← String.append_assoc, ← String.append_assoc]

/-! ## Lemmas about the record text -/

/-- The text `writerMsg` builds for a per-severity method body
`Sprintf (tagP ++ f) v` is exactly `deliveredText`, provided the level-tag
prefix contains no format verb. -/
lemma fmtText_deliveredText (bl : XLogger) (caller : Option (String × Int))
    (tagP f : String) (v : List GoVal) (h : '%' ∉ tagP.data) :
    fmtText bl caller (Sprintf (tagP ++ f) v) = deliveredText bl caller tagP f v := by
  rw [show fmtText bl caller (Sprintf (tagP ++ f) v)
      = fmtText bl caller (tagP ++ Sprintf f v) from by rw [Sprintf_append tagP f v h]]
  unfold fmtText deliveredText
  cases hE : bl.enableFuncCallDepth with
  | false => simp only [Bool.false_eq_true, if_false, Sprintf_extra_fmt]
  | true =>
    simp only [if_true]
    cases caller with
    | none => simp only [callerFile, callerLine, Sprintf_caller_fmt]
    | some p =>
      obtain ⟨pf, pl⟩ := p
      simp only [callerFile, callerLine, Sprintf_caller_fmt]

/-! ## Lemmas about the dispatch loops -/

/-- Every event the synchronous dispatch loop emits is a `write` of the given
text and level. -/
lemma writeLoop_events (outs : List (String × XLoggerInterface)) (m : String)
    (lv : Int) : ∀ ev ∈ (writeLoop outs m lv).1, ∃ n, ev = Event.write n m lv := by
  induction outs with
  | nil => intro ev hev; cases hev
  | cons p rest ih =>
    obtain ⟨name, a⟩ := p
    intro ev hev
    rw [writeLoop] at hev
    cases ha : a.writeErr m lv with
    | some e =>
      rw [ha] at hev
      rcases List.mem_singleton.mp hev with rfl
      exact ⟨name, rfl⟩
    | none =>
      rw [ha] at hev
      rcases List.mem_cons.mp hev with rfl | hmem
      · exact ⟨name, rfl⟩
      · exact ih ev hmem

/-- The synchronous dispatch loop stops at the first failing adapter: every
earlier adapter is written, the failing one is written, its error is
returned, and the remaining adapters are not touched. -/
lemma writeLoop_first_fail (pre post : List (String × XLoggerInterface))
    (name : String) (a : XLoggerInterface) (m : String) (lv : Int) (e : String)
    (hpre : ∀ p ∈ pre, p.2.writeErr m lv = none) (ha : a.writeErr m lv = some e) :
    writeLoop (pre ++ (name, a) :: post) m lv
      = (pre.map (fun p => Event.write p.1 m lv) ++ [Event.write name m lv], some e) := by
  induction pre with
  | nil =>
    rw [List.nil_append, writeLoop, ha]
    rfl
  | cons p pre ih =>
    obtain ⟨pn, pa⟩ := p
    have hp : pa.writeErr m lv = none := hpre (pn, pa) (List.mem_cons_self _ _)
    have hrest : ∀ q ∈ pre, q.2.writeErr m lv = none :=
      fun q hq => hpre q (List.mem_cons_of_mem _ hq)
    rw [List.cons_append, writeLoop, hp, ih hrest]
    simp

/-- The drain loop of `Close` writes every buffered record, head first, to
every active adapter. -/
lemma closeDrain_flat (q : List logMsg) (outs : List (String × XLoggerInterface)) :
    closeDrain q outs = (q.map (fun bm => dispatchAll outs bm.msg bm.level)).flatten := by
  induction q with
  | nil => rfl
  | cons bm rest ih =>
    rw [closeDrain, ih, List.map_cons, List.flatten_cons]

/-! ## Claims -/

/-- C5: for every registered adapter name whose factory-produced instance
fails `Init` with error `e`, `SetXLogger` (`AddAdapter`) still installs that
instance into the active adapter set under the given name and returns `e` to
the caller. -/
theorem c5_failed_init_still_installed :
    ∀ (adapters : List (String × loggerType)) (bl : XLogger) (name config : String)
      (factory : loggerType) (e : String),
      adapters.lookup name = some factory →
      (factory ()).initRes config = some e →
      SetXLogger adapters bl name config
        = ({ bl with outputs := mapInsert bl.outputs name (factory ()) }, some e) := by
  intro adapters bl name config factory e hl he
  simp only [SetXLogger, hl, he]

/-- Witness for C5: a registry entry whose `Init` fails with "init failed" is
still installed, and the error is returned. -/
theorem c5_witness :
    SetXLogger [("bad", fun _ => badInitAdapter "init failed")] (NewXLogger 4) "bad" ""
      = ({ NewXLogger 4 with outputs := [("bad", badInitAdapter "init failed")] },
         some "init failed") :=
  c5_failed_init_still_installed [("bad", fun _ => badInitAdapter "init failed")]
    (NewXLogger 4) "bad" "" (fun _ => badInitAdapter "init failed") "init failed" rfl rfl

/-- C6: each legacy alias behaves identically to its canonical counterpart on
every logger state, caller oracle, format string and argument list:
`Warn` ≡ `Warning`, `Info` ≡ `Informational`, `Trace` ≡ `Debug` (same
filtering decision, same delivered text, same delivered level). -/
theorem c6_alias_equivalence :
    ∀ (bl : XLogger) (caller : Option (String × Int)) (f : String) (v : List GoVal),
      Warn bl caller f v = Warning bl caller f v ∧
      Info bl caller f v = Informational bl caller f v ∧
      Trace bl caller f v = Debug bl caller f v :=
  fun _ _ _ _ => ⟨rfl, rfl, rfl⟩

/-- C7: for every adapter name that was never registered, `SetXLogger`
(`AddAdapter`) returns the "unknown adaptername" error and leaves the logger
state (in particular the active adapter set) unchanged. -/
theorem c7_unknown_adapter :
    ∀ (adapters : List (String × loggerType)) (bl : XLogger) (name config : String),
      adapters.lookup name = none →
      SetXLogger adapters bl name config
        = (bl, some ("logs: unknown adaptername \"" ++ name ++ "\" (forgotten Register?)")) := by
  intro adapters bl name config h
  simp only [SetXLogger, h]

/-- Witness for C7: adding adapter "file" against an empty registry fails
with the "unknown adaptername" error and does not change the logger. -/
theorem c7_witness :
    SetXLogger [] (NewXLogger 2) "file" ""
      = (NewXLogger 2,
         some ("logs: unknown adaptername \"" ++ "file" ++ "\" (forgotten Register?)")) :=
  c7_unknown_adapter [] (NewXLogger 2) "file" "" rfl

/-- C8: `Register(name, factory)` panics (modelled as `Except.error`)
whenever the factory is `nil` or the name is already present in the
registry — with the same or a different factory — and otherwise installs the
factory under the name. -/
theorem c8_register_duplicate_or_nil :
    ∀ (adapters : List (String × loggerType)) (name : String),
      Register adapters name none = .error "logs: Register provide is nil" ∧
      (∀ (f g : loggerType), adapters.lookup name = some f →
        Register adapters name (some g)
          = .error ("logs: Register called twice for provider " ++ name)) ∧
      (∀ g : loggerType, adapters.lookup name = none →
        Register adapters name (some g) = .ok (adapters ++ [(name, g)])) := by
  intro adapters name
  refine ⟨rfl, ?_, ?_⟩
  · intro f g hf
    simp only [Register, hf]
  · intro g h
    simp only [Register, h]

/-- Witness for C8: registering "console" twice fails (also with a different
factory), registering a fresh name succeeds. -/
theorem c8_witness :
    Register [("console", fun _ => okAdapter)] "console" (some (fun _ => okAdapter))
      = .error ("logs: Register called twice for provider " ++ "console") ∧
    Register [("console", fun _ => okAdapter)] "console"
        (some (fun _ => failAdapter "x"))
      = .error ("logs: Register called twice for provider " ++ "console") ∧
    Register [("console", fun _ => okAdapter)] "file" (some (fun _ => okAdapter))
      = .ok [("console", fun _ => okAdapter), ("file", fun _ => okAdapter)] :=
  ⟨(c8_register_duplicate_or_nil [("console", fun _ => okAdapter)] "console").2.1
      (fun _ => okAdapter) (fun _ => okAdapter) rfl,
   (c8_register_duplicate_or_nil [("console", fun _ => okAdapter)] "console").2.1
      (fun _ => okAdapter) (fun _ => failAdapter "x") rfl,
   (c8_register_duplicate_or_nil [("console", fun _ => okAdapter)] "file").2.2
      (fun _ => okAdapter) rfl⟩

/-- C10: for every logger state and every depth `d`, setting the caller-skip
depth and reading it back yields `d`, and the setter changes no other field
of the logger. -/
theorem c10_set_get_func_call_depth :
    ∀ (bl : XLogger) (d : Int),
      GetLogFuncCallDepth (SetLogFuncCallDepth bl d) = d ∧
      (SetLogFuncCallDepth bl d).level = bl.level ∧
      (SetLogFuncCallDepth bl d).enableFuncCallDepth = bl.enableFuncCallDepth ∧
      (SetLogFuncCallDepth bl d).asynchronous = bl.asynchronous ∧
      (SetLogFuncCallDepth bl d).channellen = bl.channellen ∧
      (SetLogFuncCallDepth bl d).msg = bl.msg ∧
      (SetLogFuncCallDepth bl d).outputs = bl.outputs ∧
      (SetLogFuncCallDepth bl d).extra = bl.extra :=
  fun _ _ => ⟨rfl, rfl, rfl, rfl, rfl, rfl, rfl, rfl⟩

/-! ## Generic lemmas about the per-severity methods

Every per-severity method of `log.go` has the same body up to its severity
constant and level-tag prefix; the next three lemmas derive the claimed
behaviours from that common shape. -/

lemma filterSpec_of (S : Int) (tagP : String)
    (M : XLogger → Option (String × Int) → String → List GoVal → XLogger × List Event)
    (hM : ∀ bl caller f v,
      M bl caller f v
        = if S > bl.level then (bl, [])
          else dropErr (writerMsg bl caller S (Sprintf (tagP ++ f) v))) :
    FilterSpec M S tagP := by
  intro bl caller f v
  constructor
  · intro h
    rw [hM, if_pos h]
  · intro h
    have hn : ¬ S > bl.level := not_lt.mpr h
    constructor
    · intro ha
      rw [hM, if_neg hn]
      simp [writerMsg, dropErr, ha]
    · intro ha
      rw [hM, if_neg hn]
      simp [writerMsg, dropErr, ha]

lemma dropsErrSpec_of (S : Int) (tagP : String)
    (M : XLogger → Option (String × Int) → String → List GoVal → XLogger × List Event)
    (hM : ∀ bl caller f v,
      M bl caller f v
        = if S > bl.level then (bl, [])
          else dropErr (writerMsg bl caller S (Sprintf (tagP ++ f) v))) :
    DropsErrSpec M S tagP := by
  intro bl caller f v h
  rw [hM, if_neg (not_lt.mpr h)]
  rfl

lemma deliveredTextSpec_of (S : Int) (tagP : String) (hT : '%' ∉ tagP.data)
    (M : XLogger → Option (String × Int) → String → List GoVal → XLogger × List Event)
    (hM : ∀ bl caller f v,
      M bl caller f v
        = if S > bl.level then (bl, [])
          else dropErr (writerMsg bl caller S (Sprintf (tagP ++ f) v))) :
    DeliveredTextSpec M S tagP := by
  intro bl caller f v h
  have hn : ¬ S > bl.level := not_lt.mpr h
  have hfmt := fmtText_deliveredText bl caller tagP f v hT
  constructor
  · intro ha
    constructor
    · rw [hM, if_neg hn]
      simp [writerMsg, dropErr, ha, hfmt]
    · intro ev hev
      rw [hM, if_neg hn] at hev
      simp only [writerMsg, dropErr, ha, Bool.false_eq_true, if_false] at hev
      rw [hfmt] at hev
      exact writeLoop_events _ _ _ ev hev
  · intro ha
    rw [hM, if_neg hn]
    simp [writerMsg, dropErr, ha, hfmt]

/-- C1: for every severity `S` and configured minimum level `L`, each
per-severity method (including the aliases) delivers to the adapters iff
`S ≤ L` numerically; when `S > L` the call returns immediately with the
state unchanged and no adapter call. -/
theorem c1_level_filter :
    FilterSpec Emergency LevelEmergency "[M] " ∧
    FilterSpec Alert LevelAlert "[A] " ∧
    FilterSpec Critical LevelCritical "[C] " ∧
    FilterSpec Error LevelError "[E] " ∧
    FilterSpec Warning LevelWarning "[W] " ∧
    FilterSpec Notice LevelNotice "[N] " ∧
    FilterSpec Informational LevelInformational "[I] " ∧
    FilterSpec Debug LevelDebug "[D] " ∧
    FilterSpec Warn LevelWarning "[W] " ∧
    FilterSpec Info LevelInformational "[I] " ∧
    FilterSpec Trace LevelDebug "[D] " :=
  ⟨filterSpec_of _ _ _ (fun _ _ _ _ => rfl), filterSpec_of _ _ _ (fun _ _ _ _ => rfl),
   filterSpec_of _ _ _ (fun _ _ _ _ => rfl), filterSpec_of _ _ _ (fun _ _ _ _ => rfl),
   filterSpec_of _ _ _ (fun _ _ _ _ => rfl), filterSpec_of _ _ _ (fun _ _ _ _ => rfl),
   filterSpec_of _ _ _ (fun _ _ _ _ => rfl), filterSpec_of _ _ _ (fun _ _ _ _ => rfl),
   filterSpec_of _ _ _ (fun _ _ _ _ => rfl), filterSpec_of _ _ _ (fun _ _ _ _ => rfl),
   filterSpec_of _ _ _ (fun _ _ _ _ => rfl)⟩

/-- Witness for C1: with minimum level `Error`, a `Debug` call is a no-op
and an `Error` call writes to the active adapter. -/
theorem c1_witness :
    Debug { NewXLogger 0 with level := LevelError, outputs := [("rec", okAdapter)] }
        none "x" []
      = ({ NewXLogger 0 with level := LevelError, outputs := [("rec", okAdapter)] }, []) ∧
    Error { NewXLogger 0 with level := LevelError, outputs := [("rec", okAdapter)] }
        none "x" []
      = ({ NewXLogger 0 with level := LevelError, outputs := [("rec", okAdapter)] },
         [Event.write "rec" "[] [E] x" LevelError]) :=
  ⟨(c1_level_filter.2.2.2.2.2.2.2.1 _ none "x" []).1 (by decide),
   ((c1_level_filter.2.2.2.1 _ none "x" []).2 (by decide)).1 rfl⟩

/-- C9: every public per-severity method (including the aliases) returns no
error value: whenever the filter passes it returns exactly the state and
trace of `writerMsg` with the error component projected away, so adapter
write failures are never observable at the public surface. -/
theorem c9_public_surface_discards_errors :
    DropsErrSpec Emergency LevelEmergency "[M] " ∧
    DropsErrSpec Alert LevelAlert "[A] " ∧
    DropsErrSpec Critical LevelCritical "[C] " ∧
    DropsErrSpec Error LevelError "[E] " ∧
    DropsErrSpec Warning LevelWarning "[W] " ∧
    DropsErrSpec Notice LevelNotice "[N] " ∧
    DropsErrSpec Informational LevelInformational "[I] " ∧
    DropsErrSpec Debug LevelDebug "[D] " ∧
    DropsErrSpec Warn LevelWarning "[W] " ∧
    DropsErrSpec Info LevelInformational "[I] " ∧
    DropsErrSpec Trace LevelDebug "[D] " :=
  ⟨dropsErrSpec_of _ _ _ (fun _ _ _ _ => rfl), dropsErrSpec_of _ _ _ (fun _ _ _ _ => rfl),
   dropsErrSpec_of _ _ _ (fun _ _ _ _ => rfl), dropsErrSpec_of _ _ _ (fun _ _ _ _ => rfl),
   dropsErrSpec_of _ _ _ (fun _ _ _ _ => rfl), dropsErrSpec_of _ _ _ (fun _ _ _ _ => rfl),
   dropsErrSpec_of _ _ _ (fun _ _ _ _ => rfl), dropsErrSpec_of _ _ _ (fun _ _ _ _ => rfl),
   dropsErrSpec_of _ _ _ (fun _ _ _ _ => rfl), dropsErrSpec_of _ _ _ (fun _ _ _ _ => rfl),
   dropsErrSpec_of _ _ _ (fun _ _ _ _ => rfl)⟩

/-- Witness for C9: against an adapter whose `WriteMsg` fails with "boom",
`writerMsg` returns the error but the public `Error` method returns only the
state and the trace. -/
theorem c9_witness :
    (writerMsg { NewXLogger 0 with outputs := [("f", failAdapter "boom")] }
        none LevelError (Sprintf ("[E] " ++ "x") [])).2.2 = some "boom" ∧
    Error { NewXLogger 0 with outputs := [("f", failAdapter "boom")] } none "x" []
      = ({ NewXLogger 0 with outputs := [("f", failAdapter "boom")] },
         [Event.write "f" "[] [E] x" LevelError]) :=
  ⟨rfl,
   c9_public_surface_discards_errors.2.2.2.1 _ none "x" [] (by decide)⟩

/-- C4: when a record reaches several adapters and one `WriteMsg` fails, the
synchronous path (`writerMsg`) returns that error immediately and skips the
remaining adapters, while the asynchronous drain path (`dispatchAll`, the
loop body of `startXLogger`) still calls every adapter. -/
theorem c4_write_failure_asymmetry :
    ∀ (bl : XLogger) (caller : Option (String × Int)) (lv : Int) (m : String)
      (pre post : List (String × XLoggerInterface)) (name : String)
      (a : XLoggerInterface) (e : String),
      bl.asynchronous = false →
      bl.outputs = pre ++ (name, a) :: post →
      (∀ p ∈ pre, p.2.writeErr (fmtText bl caller m) lv = none) →
      a.writeErr (fmtText bl caller m) lv = some e →
      writerMsg bl caller lv m
        = (bl, pre.map (fun p => Event.write p.1 (fmtText bl caller m) lv)
            ++ [Event.write name (fmtText bl caller m) lv], some e) ∧
      dispatchAll bl.outputs (fmtText bl caller m) lv
        = (pre ++ (name, a) :: post).map
            (fun p => Event.write p.1 (fmtText bl caller m) lv) := by
  intro bl caller lv m pre post name a e hs ho hpre ha
  constructor
  · rw [show writerMsg bl caller lv m
        = (bl, (writeLoop bl.outputs (fmtText bl caller m) lv).1,
               (writeLoop bl.outputs (fmtText bl caller m) lv).2) from by
      simp [writerMsg, hs]]
    rw [ho, writeLoop_first_fail pre post name a (fmtText bl caller m) lv e hpre ha]
  · rw [ho]
    rfl

/-- Witness for C4: three adapters, the middle one failing; the synchronous
path writes the first two and returns "boom", the drain path writes all
three. -/
theorem c4_witness :
    writerMsg { NewXLogger 0 with
        outputs := [("a0", okAdapter), ("f", failAdapter "boom"), ("z", okAdapter)] }
        none LevelError "hello"
      = ({ NewXLogger 0 with
            outputs := [("a0", okAdapter), ("f", failAdapter "boom"), ("z", okAdapter)] },
         [Event.write "a0" "[] hello" LevelError, Event.write "f" "[] hello" LevelError],
         some "boom") ∧
    dispatchAll [("a0", okAdapter), ("f", failAdapter "boom"), ("z", okAdapter)]
        "[] hello" LevelError
      = [Event.write "a0" "[] hello" LevelError, Event.write "f" "[] hello" LevelError,
         Event.write "z" "[] hello" LevelError] :=
  c4_write_failure_asymmetry
    { NewXLogger 0 with
        outputs := [("a0", okAdapter), ("f", failAdapter "boom"), ("z", okAdapter)] }
    none LevelError "hello" [("a0", okAdapter)] [("z", okAdapter)] "f"
    (failAdapter "boom") "boom" rfl rfl
    (fun p hp => by rcases List.mem_singleton.mp hp with rfl; rfl) rfl

/-! Counting lemmas for the shutdown path. -/

lemma dispatchAll_write_count (outs : List (String × XLoggerInterface))
    (m : String) (lv : Int) : (dispatchAll outs m lv).countP isWrite = outs.length := by
  have h : ∀ ev ∈ outs.map (fun p => Event.write p.1 m lv), isWrite ev = true := by
    intro ev hev
    obtain ⟨p, _, rfl⟩ := List.mem_map.mp hev
    rfl
  rw [show dispatchAll outs m lv = outs.map (fun p => Event.write p.1 m lv) from rfl,
    List.countP_eq_length.mpr h, List.length_map]

lemma closeDrain_write_count (q : List logMsg) (outs : List (String × XLoggerInterface)) :
    (closeDrain q outs).countP isWrite = q.length * outs.length := by
  induction q with
  | nil => simp [closeDrain]
  | cons bm rest ih =>
    rw [closeDrain, List.countP_append, ih, dispatchAll_write_count, List.length_cons]
    ring

lemma shutdown_write_count (outs : List (String × XLoggerInterface)) :
    ((outs.map (fun p => [Event.flush p.1, Event.destroy p.1])).flatten).countP isWrite
      = 0 := by
  induction outs with
  | nil => rfl
  | cons p rest ih =>
    rw [List.map_cons, List.flatten_cons, List.countP_append, ih]
    rfl

/-- C3: `Close` first writes every buffered record to every active adapter in
enqueue (FIFO) order — `msg.length * outputs.length` writes in total — and
only then flushes and destroys each active adapter; on an empty queue it
performs zero writes and goes straight to flush/destroy. -/
theorem c3_close_drains_then_destroys :
    ∀ (bl : XLogger),
      (Close bl).1 = { bl with msg := [] } ∧
      (Close bl).2
        = (bl.msg.map (fun bm => dispatchAll bl.outputs bm.msg bm.level)).flatten
          ++ (bl.outputs.map (fun p => [Event.flush p.1, Event.destroy p.1])).flatten ∧
      (Close bl).2.countP isWrite = bl.msg.length * bl.outputs.length ∧
      (bl.msg = [] →
        (Close bl).2
          = (bl.outputs.map (fun p => [Event.flush p.1, Event.destroy p.1])).flatten) := by
  intro bl
  refine ⟨rfl, ?_, ?_, ?_⟩
  · show closeDrain bl.msg bl.outputs ++ _ = _
    rw [closeDrain_flat]
  · show (closeDrain bl.msg bl.outputs
        ++ (bl.outputs.map (fun p => [Event.flush p.1, Event.destroy p.1])).flatten).countP
          isWrite = _
    rw [List.countP_append, closeDrain_write_count, shutdown_write_count, Nat.add_zero]
  · intro h
    show closeDrain bl.msg bl.outputs ++ _ = _
    rw [h, show closeDrain [] bl.outputs = [] from rfl, List.nil_append]

/-- Witness for C3: `Close` on an empty queue with one active adapter only
flushes and destroys it. -/
theorem c3_witness :
    (Close { NewXLogger 0 with outputs := [("a", okAdapter)] }).2
      = [Event.flush "a", Event.destroy "a"] :=
  (c3_close_drains_then_destroys
    { NewXLogger 0 with outputs := [("a", okAdapter)] }).2.2.2 rfl

/-- Counterexample to C2 as stated: with caller-location reporting disabled
and the default empty extra tag, `Error("boom %d", 7)` delivers the text
`"[] [E] boom 7"`, not `"[E] boom 7"` — the `"[<extra>] "` prefix is always
added, so the claim's "no other prefix is added in either mode" is false. -/
theorem c2_counterexample :
    (Error { NewXLogger 0 with outputs := [("rec", okAdapter)] }
        none "boom %d" [.int 7]).2
      = [Event.write "rec" "[] [E] boom 7" LevelError] ∧
    "[] [E] boom 7" ≠ "[E] boom 7" :=
  ⟨rfl, by decide⟩

/-- C2 (amended): for every logging call that passes the level filter, the
final text delivered to adapters (or enqueued) is `deliveredText`: the
prefix `"[<extra>] "` — or `"[<extra>:<file-basename>:<line>] "` when
caller-location reporting is enabled — followed by `"[<level-tag>] "` and
the printf-expansion of `(format, args)`, with no other prefix. -/
theorem c2_delivered_text :
    DeliveredTextSpec Emergency LevelEmergency "[M] " ∧
    DeliveredTextSpec Alert LevelAlert "[A] " ∧
    DeliveredTextSpec Critical LevelCritical "[C] " ∧
    DeliveredTextSpec Error LevelError "[E] " ∧
    DeliveredTextSpec Warning LevelWarning "[W] " ∧
    DeliveredTextSpec Notice LevelNotice "[N] " ∧
    DeliveredTextSpec Informational LevelInformational "[I] " ∧
    DeliveredTextSpec Debug LevelDebug "[D] " ∧
    DeliveredTextSpec Warn LevelWarning "[W] " ∧
    DeliveredTextSpec Info LevelInformational "[I] " ∧
    DeliveredTextSpec Trace LevelDebug "[D] " :=
  ⟨deliveredTextSpec_of _ _ (by decide) _ (fun _ _ _ _ => rfl),
   deliveredTextSpec_of _ _ (by decide) _ (fun _ _ _ _ => rfl),
   deliveredTextSpec_of _ _ (by decide) _ (fun _ _ _ _ => rfl),
   deliveredTextSpec_of _ _ (by decide) _ (fun _ _ _ _ => rfl),
   deliveredTextSpec_of _ _ (by decide) _ (fun _ _ _ _ => rfl),
   deliveredTextSpec_of _ _ (by decide) _ (fun _ _ _ _ => rfl),
   deliveredTextSpec_of _ _ (by decide) _ (fun _ _ _ _ => rfl),
   deliveredTextSpec_of _ _ (by decide) _ (fun _ _ _ _ => rfl),
   deliveredTextSpec_of _ _ (by decide) _ (fun _ _ _ _ => rfl),
   deliveredTextSpec_of _ _ (by decide) _ (fun _ _ _ _ => rfl),
   deliveredTextSpec_of _ _ (by decide) _ (fun _ _ _ _ => rfl)⟩

/-- Witness for C2 (amended): a passing `Error` call with a `%s` argument
delivers exactly the amended text. -/
theorem c2_delivered_text_witness :
    (Error { NewXLogger 0 with outputs := [("rec", okAdapter)] }
        none "a %s b" [.str "Z"]).2
      = [Event.write "rec" "[] [E] a Z b" LevelError] :=
  ((c2_delivered_text.2.2.2.1 _ none "a %s b" [.str "Z"] (by decide)).1 rfl).1

end Logs
